import Mathlib

/-!
Verification development for the cat4igp mesh-overlay control plane.

This file gives a shallow embedding, in Lean 4, of the pure core of the
repository: the controller's tunnel-pairing database operations
(`src/server/src/db.rs`), the per-peer tunnel projection of the client
router (`src/server/src/router/client.rs`), the client's interface-name
derivation and link-local address derivation
(`src/client/src/daemon/daemon_memory/wireguard.rs`,
`src/client/src/interface/mod.rs`, including a full executable model of
BLAKE2s-256), the STUN message construction, parsing and RFC 5780 NAT
classification (`src/client/src/network/public_ip.rs`), and the IPC
shared-secret comparison (`src/client/src/daemon/protocol.rs`).

Database tables are modelled as lists, machine integers as `Int`/`Nat`
(with explicit `% 2^w` where overflow matters), timestamps as abstract
integers supplied by the caller, byte strings as `List Nat` of values
below 256, and fallible operations return `Except`.
-/

/-! ## Controller data model (`src/server/src/models.rs`, `src/server/src/schema.rs`)

`wireguard_tunnels` rows.  `peer1_answered`/`peer2_answered` are stored as
`SmallInt` in the schema (0 = Unanswered, 1 = Answered, 2 = RejectedGeneric,
3 = RejectedNoIpStack), modelled as `Int`.  `created_at`/`updated_at` are
abstract timestamps. -/
structure WireguardTunnel where
  id : Int
  node_id_peer1 : Int
  node_id_peer2 : Int
  endpoint_peer1 : Option String
  endpoint_peer2 : Option String
  peer1_answered : Int
  peer2_answered : Int
  mtu : Int
  endpoint_ipv6 : Bool
  created_at : Int
  updated_at : Int
deriving DecidableEq, Repr

/-- Rows of the `mesh_groups` table. -/
structure MeshGroup where
  id : Int
  name : String
  auto_wireguard : Bool
  auto_wireguard_mtu : Int
deriving DecidableEq, Repr

/-- The controller database state: the tables touched by the tunnel-pairing
operations.  `memberships` holds `(mesh_group_id, node_id)` pairs,
`node_ids` the ids present in the `nodes` table, `static_keys` the
`wireguard_static_key` table as `(node_id, public_key)`, and
`next_tunnel_id` models SQLite row-id assignment for inserts into
`wireguard_tunnels`. -/
structure ServerDb where
  tunnels : List WireguardTunnel
  next_tunnel_id : Int
  meshes : List MeshGroup
  memberships : List (Int × Int)
  node_ids : List Int
  static_keys : List (Int × String)
deriving DecidableEq, Repr

/-- Errors of the database layer; a duplicate tunnel pair is reported by the
source as `diesel::result::Error::NotFound`. -/
inductive DbError where
  | notFound
deriving DecidableEq, Repr

/-- The duplicate-pair guard of `create_wireguard_tunnel` in
`src/server/src/db.rs`: a row whose unordered peer pair and `endpoint_ipv6`
flag match the requested ones. -/
def tunnelPairMatches (peer1_id peer2_id : Int) (endpoint_should_be_ipv6 : Bool)
    (t : WireguardTunnel) : Bool :=
  ((t.node_id_peer1 == peer1_id && t.node_id_peer2 == peer2_id) ||
   (t.node_id_peer1 == peer2_id && t.node_id_peer2 == peer1_id)) &&
  (t.endpoint_ipv6 == endpoint_should_be_ipv6)

/-- Model of `create_wireguard_tunnel` (`src/server/src/db.rs`): fail with `NotFound`
when a row with the same unordered pair and `endpoint_ipv6` flag exists,
otherwise insert one row with null endpoints, `Unanswered` (= 0) answer
values and fresh timestamps.  `now` abstracts the insert timestamp. -/
def create_wireguard_tunnel (db : ServerDb) (peer1_id peer2_id : Int)
    (mtu_val : Int) (endpoint_should_be_ipv6 : Bool) (now : Int) :
    Except DbError ServerDb :=
  let existing_tunnel :=
    db.tunnels.find? (tunnelPairMatches peer1_id peer2_id endpoint_should_be_ipv6)
  if existing_tunnel.isSome then
    .error .notFound
  else
    .ok { db with
          tunnels := db.tunnels ++
            [{ id := db.next_tunnel_id
               node_id_peer1 := peer1_id
               node_id_peer2 := peer2_id
               endpoint_peer1 := none
               endpoint_peer2 := none
               peer1_answered := 0
               peer2_answered := 0
               mtu := mtu_val
               endpoint_ipv6 := endpoint_should_be_ipv6
               created_at := now
               updated_at := now }]
          next_tunnel_id := db.next_tunnel_id + 1 }

/-- Model of `get_wireguard_answers` (`src/server/src/db.rs`): every tunnel row in
which the node appears as either peer. -/
def get_wireguard_answers (db : ServerDb) (node_id_val : Int) :
    List WireguardTunnel :=
  db.tunnels.filter fun t =>
    t.node_id_peer1 == node_id_val || t.node_id_peer2 == node_id_val

/-- Model of `answer_wireguard_tunnel` (`src/server/src/db.rs`): the source first
queries for a row with the given id whose `node_id_peer1` equals the caller;
if one exists it updates the peer-1 side of every row with that id,
otherwise it updates the peer-2 side.  The answered value becomes the
decline code when `decline_type` is given and `Answered` (= 1) otherwise;
`updated_at` is set to now.  The source returns `Ok(())` on both branches. -/
def answer_wireguard_tunnel (db : ServerDb) (tunnel_id_val node_id_val : Int)
    (endpoint : Option String) (decline_type : Option Int) (now : Int) :
    ServerDb :=
  let caller_is_peer1 :=
    (db.tunnels.find? fun t =>
      t.id == tunnel_id_val && t.node_id_peer1 == node_id_val).isSome
  if caller_is_peer1 then
    { db with tunnels := db.tunnels.map fun t =>
        if t.id == tunnel_id_val then
          { t with
            peer1_answered := match decline_type with
              | some decline => decline
              | none => 1
            endpoint_peer1 := endpoint
            updated_at := now }
        else t }
  else
    { db with tunnels := db.tunnels.map fun t =>
        if t.id == tunnel_id_val then
          { t with
            peer2_answered := match decline_type with
              | some decline => decline
              | none => 1
            endpoint_peer2 := endpoint
            updated_at := now }
        else t }

/-- Model of `get_mesh_members` (`src/server/src/db.rs`): memberships of the mesh
inner-joined with the `nodes` table; only the node ids are relevant here. -/
def get_mesh_members (db : ServerDb) (mesh_id_val : Int) : List Int :=
  ((db.memberships.filter fun m => m.1 == mesh_id_val).map Prod.snd).filter
    fun n => db.node_ids.contains n

/-- A `create_wireguard_tunnel` attempt whose error is discarded, keeping
the previous state ("we do not care about errors here, as the tunnel may
already exist"). -/
def createOrKeep (db : ServerDb) (peer1_id peer2_id mtu_val : Int)
    (endpoint_should_be_ipv6 : Bool) (now : Int) : ServerDb :=
  match create_wireguard_tunnel db peer1_id peer2_id mtu_val
      endpoint_should_be_ipv6 now with
  | .ok d => d
  | .error _ => db

/-- One step of the auto-wireguard loop body of `join_mesh`: attempt the
IPv4-endpoint and the IPv6-endpoint tunnel to `peer`, ignoring errors. -/
def joinMeshTunnelStep (node_id_val mtu_val now : Int) (db : ServerDb)
    (peer : Int) : ServerDb :=
  if peer != node_id_val then
    createOrKeep (createOrKeep db node_id_val peer mtu_val false now)
      node_id_val peer mtu_val true now
  else db

/-- Model of `join_mesh` (`src/server/src/db.rs`): `NotFound` when the mesh does not
exist; otherwise an `ON CONFLICT DO NOTHING` membership insert, and, when the
mesh has `auto_wireguard`, one `joinMeshTunnelStep` per current member. -/
def join_mesh (db : ServerDb) (node_id_val mesh_id_val : Int) (now : Int) :
    Except DbError ServerDb :=
  match db.meshes.find? fun m => m.id == mesh_id_val with
  | none => .error .notFound
  | some mesh =>
    let db1 :=
      if db.memberships.contains (mesh_id_val, node_id_val) then db
      else { db with memberships := db.memberships ++ [(mesh_id_val, node_id_val)] }
    if mesh.auto_wireguard then
      let peer_nodes := get_mesh_members db1 mesh_id_val
      .ok (peer_nodes.foldl (joinMeshTunnelStep node_id_val mesh.auto_wireguard_mtu now) db1)
    else
      .ok db1

/-- Model of `get_wireguard_pubkey` (`src/server/src/db.rs`) as used by the router,
which replaces a missing key by the empty string (`unwrap_or_default`). -/
def get_wireguard_pubkey_or_default (db : ServerDb) (node_id_val : Int) : String :=
  match db.static_keys.find? fun k => k.1 == node_id_val with
  | some k => k.2
  | none => ""

/-! ## Per-peer tunnel view (`src/server/src/router/client.rs`) -/

/-- The serialized `WireguardTunnelInfo` of the client router.  The answered
fields are serialized through the `WireguardAnswered` enum of
`src/server/src/ext.rs`; its numeric values are kept here. -/
structure WireguardTunnelInfo where
  tunnel_id : Int
  peer_node_id : Int
  public_key : String
  remote_endpoint : Option String
  local_answered : Int
  remote_response : Int
  mtu : Int
  endpoint_ipv6 : Bool
  created_at : Int
  updated_at : Int
deriving DecidableEq, Repr

/-- Model of `get_wireguard_tunnels` (`src/server/src/router/client.rs`): the
projection the list-tunnels endpoint returns to the requesting node.  Note
that the source swaps `peer_node_id`, `local_answered` and `remote_response`
according to which peer the requester is, but fills `remote_endpoint` with
`tunnel.endpoint_peer2` unconditionally. -/
def get_wireguard_tunnels (db : ServerDb) (node_id : Int) :
    List WireguardTunnelInfo :=
  (get_wireguard_answers db node_id).map fun tunnel =>
    let self_p1 := tunnel.node_id_peer1 == node_id
    let peer_node_id := if self_p1 then tunnel.node_id_peer2 else tunnel.node_id_peer1
    let local_answered := if self_p1 then tunnel.peer1_answered else tunnel.peer2_answered
    let remote_response := if self_p1 then tunnel.peer2_answered else tunnel.peer1_answered
    let public_key := get_wireguard_pubkey_or_default db peer_node_id
    { tunnel_id := tunnel.id
      peer_node_id := peer_node_id
      public_key := public_key
      remote_endpoint := tunnel.endpoint_peer2
      local_answered := local_answered
      remote_response := remote_response
      mtu := tunnel.mtu
      endpoint_ipv6 := tunnel.endpoint_ipv6
      created_at := tunnel.created_at
      updated_at := tunnel.updated_at }

/-! ## Interface-name derivation
(`gen_new_wg_tunnel`, `src/client/src/daemon/daemon_memory/wireguard.rs`)

The source packs a 64-bit big-endian bitfield into `bit_slice : [u8; 8]` and
names the interface `"cat"` followed by the first 12 characters of the
Crockford base-32 encoding of those 8 bytes.  `peer_node_id` and `tunnel_id`
are `i32`; they are modelled by the natural number whose low 32 bits are
their two's-complement bit pattern (the packing only reads low bits, through
`as u8` casts and masks, so no bound is needed). -/

/-- The `bit_slice` byte packing of `gen_new_wg_tunnel`:
byte 0 is the protocol tag `0b11100` in its top 5 bits with the top 3 of
the 15 peer-id bits below it, byte 1 the next 8 peer-id bits, byte 2 the
low 4 peer-id bits then the `endpoint_ipv6`/`fec`/`faketcp` flags, bytes
3-4 the low 16 bits of the tunnel id, bytes 5-7 zero. -/
def wg_bit_slice (tunnel_id peer_node_id : Nat)
    (endpoint_ipv6 fec faketcp : Bool) : List Nat :=
  let b0 := (0b11100 <<< 3) ||| ((peer_node_id >>> 12) &&& 0b00000111)
  let b1 := (peer_node_id >>> 4) &&& 255
  let b2a := (peer_node_id &&& 0b1111) <<< 4
  let b2b := if endpoint_ipv6 then b2a ||| 0b1000 else b2a
  let b2c := if fec then b2b ||| 0b0100 else b2b
  let b2 := if faketcp then b2c ||| 0b0010 else b2c
  let b3 := (tunnel_id >>> 8) &&& 255
  let b4 := tunnel_id &&& 255
  [b0, b1, b2, b3, b4, 0, 0, 0]

/-- The 64-bit value of an 8-byte buffer read big-endian. -/
def bytesToNatBE (bs : List Nat) : Nat :=
  bs.foldl (fun acc b => acc * 256 + b) 0

/-- The Crockford base-32 alphabet. -/
def crockfordAlphabet : List Char :=
  ['0', '1', '2', '3', '4', '5', '6', '7', '8', '9', 'A', 'B', 'C', 'D',
   'E', 'F', 'G', 'H', 'J', 'K', 'M', 'N', 'P', 'Q', 'R', 'S', 'T', 'V',
   'W', 'X', 'Y', 'Z']

/-- Model of `base32::encode(Crockford, _)` on an 8-byte input (as called in
`gen_new_wg_tunnel`): the 64 bits of the buffer are consumed MSB-first in
5-bit groups, the last group padded with zero bits, giving 13 characters.
Group `i` of the 65-bit zero-padded stream `2 * v` has the value
`(2 * v) >>> (60 - 5 * i) % 32`. -/
def base32CrockfordOf8Bytes (bs : List Nat) : List Char :=
  let v := bytesToNatBE bs
  (List.range 13).map fun i => crockfordAlphabet.getD (((2 * v) >>> (60 - 5 * i)) % 32) '0'

/-- The interface name built by `gen_new_wg_tunnel`:
`format!("cat{}", base32::encode(Crockford, bit_slice)[..12])`. -/
def gen_new_wg_tunnel_ifname (tunnel_id peer_node_id : Nat)
    (endpoint_ipv6 fec faketcp : Bool) : List Char :=
  'c' :: 'a' :: 't' ::
    (base32CrockfordOf8Bytes
      (wg_bit_slice tunnel_id peer_node_id endpoint_ipv6 fec faketcp)).take 12

/-- The bitfield as claimed by the specification: bit 0 (MSB of byte 0)
through bit 4 hold `11100`, bits 5-19 the 15 low bits of the peer node id,
bit 20 `endpoint_ipv6`, bit 21 `fec`, bit 22 `faketcp`, bit 23 zero, bits
24-39 the 16 low bits of the tunnel id, and the remaining bits zero.
Written as a sum of disjoint shifted fields of the 64-bit value. -/
def specPackedBitfield (tunnel_id peer_node_id : Nat)
    (endpoint_ipv6 fec faketcp : Bool) : Nat :=
  0b11100 * 2 ^ 59 +
  (peer_node_id % 2 ^ 15) * 2 ^ 44 +
  (if endpoint_ipv6 then 1 else 0) * 2 ^ 43 +
  (if fec then 1 else 0) * 2 ^ 42 +
  (if faketcp then 1 else 0) * 2 ^ 41 +
  (tunnel_id % 2 ^ 16) * 2 ^ 24

/-- The interface name as the specification describes it: `cat` followed by
the first 12 characters of the Crockford base-32 encoding of the 8-byte
big-endian buffer holding `specPackedBitfield`. -/
def specIfaceName (tunnel_id peer_node_id : Nat)
    (endpoint_ipv6 fec faketcp : Bool) : List Char :=
  let v := specPackedBitfield tunnel_id peer_node_id endpoint_ipv6 fec faketcp
  'c' :: 'a' :: 't' ::
    ((List.range 13).map fun i =>
      crockfordAlphabet.getD (((2 * v) >>> (60 - 5 * i)) % 32) '0').take 12

/-! ## BLAKE2s-256 and the derived IPv6 link-local address
(`generate_ipv6_lla_from_seed`, `src/client/src/interface/mod.rs`)

Executable model of BLAKE2s-256 (RFC 7693) as computed by the `blake2`
crate's `Blake2s256`: unkeyed, 32-byte digest.  Words are 32-bit naturals
(explicit `% 2^32`), the state a 16-element list. -/

/-- 32-bit right rotation. -/
def rotr32 (x n : Nat) : Nat :=
  ((x >>> n) ||| (x <<< (32 - n))) % 4294967296

/-- 32-bit wrapping addition. -/
def add32 (a b : Nat) : Nat := (a + b) % 4294967296

/-- The BLAKE2s initialization vector. -/
def blakeIV : List Nat :=
  [0x6A09E667, 0xBB67AE85, 0x3C6EF372, 0xA54FF53A,
   0x510E527F, 0x9B05688C, 0x1F83D9AB, 0x5BE0CD19]

/-- The BLAKE2s message schedule sigma. -/
def blakeSigma : List (List Nat) :=
  [[0, 1, 2, 3, 4, 5, 6, 7, 8, 9, 10, 11, 12, 13, 14, 15],
   [14, 10, 4, 8, 9, 15, 13, 6, 1, 12, 0, 2, 11, 7, 5, 3],
   [11, 8, 12, 0, 5, 2, 15, 13, 10, 14, 3, 6, 7, 1, 9, 4],
   [7, 9, 3, 1, 13, 12, 11, 14, 2, 6, 5, 10, 4, 0, 15, 8],
   [9, 0, 5, 7, 2, 4, 10, 15, 14, 1, 11, 12, 6, 8, 3, 13],
   [2, 12, 6, 10, 0, 11, 8, 3, 4, 13, 7, 5, 15, 14, 1, 9],
   [12, 5, 1, 15, 14, 13, 4, 10, 0, 7, 6, 3, 9, 2, 8, 11],
   [13, 11, 7, 14, 12, 1, 3, 9, 5, 0, 15, 4, 8, 6, 2, 10],
   [6, 15, 14, 9, 11, 3, 0, 8, 12, 2, 13, 7, 1, 4, 10, 5],
   [10, 2, 8, 4, 7, 6, 1, 5, 15, 11, 9, 14, 3, 12, 13, 0]]

/-- The BLAKE2s mixing function G on working-state indices `a b c d` with
message words `x y`. -/
def blakeG (v : List Nat) (a b c d x y : Nat) : List Nat :=
  let va := add32 (add32 (v.getD a 0) (v.getD b 0)) x
  let vd := rotr32 ((v.getD d 0) ^^^ va) 16
  let vc := add32 (v.getD c 0) vd
  let vb := rotr32 ((v.getD b 0) ^^^ vc) 12
  let va2 := add32 (add32 va vb) y
  let vd2 := rotr32 (vd ^^^ va2) 8
  let vc2 := add32 vc vd2
  let vb2 := rotr32 (vb ^^^ vc2) 7
  (((v.set a va2).set b vb2).set c vc2).set d vd2

/-- One BLAKE2s round with schedule row `s` on message words `m`. -/
def blakeRound (m v s : List Nat) : List Nat :=
  let v := blakeG v 0 4 8 12 (m.getD (s.getD 0 0) 0) (m.getD (s.getD 1 0) 0)
  let v := blakeG v 1 5 9 13 (m.getD (s.getD 2 0) 0) (m.getD (s.getD 3 0) 0)
  let v := blakeG v 2 6 10 14 (m.getD (s.getD 4 0) 0) (m.getD (s.getD 5 0) 0)
  let v := blakeG v 3 7 11 15 (m.getD (s.getD 6 0) 0) (m.getD (s.getD 7 0) 0)
  let v := blakeG v 0 5 10 15 (m.getD (s.getD 8 0) 0) (m.getD (s.getD 9 0) 0)
  let v := blakeG v 1 6 11 12 (m.getD (s.getD 10 0) 0) (m.getD (s.getD 11 0) 0)
  let v := blakeG v 2 7 8 13 (m.getD (s.getD 12 0) 0) (m.getD (s.getD 13 0) 0)
  blakeG v 3 4 9 14 (m.getD (s.getD 14 0) 0) (m.getD (s.getD 15 0) 0)

/-- A 32-bit word read little-endian from 4 bytes. -/
def leWord (bs : List Nat) : Nat :=
  bs.getD 0 0 + (bs.getD 1 0) * 256 + (bs.getD 2 0) * 65536 + (bs.getD 3 0) * 16777216

/-- The 16 message words of a 64-byte block, little-endian. -/
def blockWords (block : List Nat) : List Nat :=
  (List.range 16).map fun i => leWord ((block.drop (4 * i)).take 4)

/-- The BLAKE2s compression function: state `h`, one 64-byte block, byte
counter `t`, final-block flag `f`. -/
def blakeCompress (h block : List Nat) (t : Nat) (f : Bool) : List Nat :=
  let m := blockWords block
  let v := h ++ blakeIV
  let v := v.set 12 ((v.getD 12 0) ^^^ (t % 4294967296))
  let v := v.set 13 ((v.getD 13 0) ^^^ (t / 4294967296 % 4294967296))
  let v := if f then v.set 14 ((v.getD 14 0) ^^^ 0xFFFFFFFF) else v
  let v := blakeSigma.foldl (fun v s => blakeRound m v s) v
  (List.range 8).map fun i => (h.getD i 0) ^^^ (v.getD i 0) ^^^ (v.getD (i + 8) 0)

/-- Split a message into 64-byte blocks; the final block may be short (and
an empty message yields one empty block).  `fuel` bounds the recursion and
is passed as the message length, which always suffices since each step
removes 64 bytes. -/
def toBlake2sBlocks (fuel : Nat) (l : List Nat) : List (List Nat) :=
  match fuel with
  | 0 => [l]
  | fuel + 1 =>
    if l.length ≤ 64 then [l]
    else l.take 64 :: toBlake2sBlocks fuel (l.drop 64)

/-- Iterate the compression over the blocks, tracking the byte counter. -/
def blake2sBlocksLoop (h : List Nat) (t : Nat) : List (List Nat) → List Nat
  | [] => h
  | [last] => blakeCompress h (last ++ List.replicate (64 - last.length) 0)
      (t + last.length) true
  | b :: rest => blake2sBlocksLoop (blakeCompress h b (t + 64) false) (t + 64) rest

/-- BLAKE2s-256 of a byte string (input bytes are reduced mod 256, as they
are `u8` in the source): the 32-byte digest, little-endian per word. -/
def blake2s256 (input : List Nat) : List Nat :=
  let h0 := blakeIV.set 0 ((blakeIV.getD 0 0) ^^^ 0x01010020)
  let hfin := blake2sBlocksLoop h0 0
    (toBlake2sBlocks input.length (input.map (· % 256)))
  hfin.flatMap fun w => [w % 256, w >>> 8 % 256, w >>> 16 % 256, w >>> 24 % 256]

/-- Model of `generate_ipv6_lla_from_seed` (`src/client/src/interface/mod.rs`): hash
the seed with BLAKE2s-256 and combine with the `fe80::/64` template:
`result[i] = (prefix[i] & mask[i]) | (hash[i] & !mask[i])` with `mask`
covering the high 8 bytes.  The 16 resulting bytes of the address. -/
def generate_ipv6_lla_from_seed (seed : List Nat) : List Nat :=
  let hash := blake2s256 seed
  let fe80Template : List Nat := [0xfe, 0x80, 0, 0, 0, 0, 0, 0, 0, 0, 0, 0, 0, 0, 0, 0]
  let maskBytes : List Nat := [255, 255, 255, 255, 255, 255, 255, 255, 0, 0, 0, 0, 0, 0, 0, 0]
  let notMaskBytes : List Nat := maskBytes.map fun b => b ^^^ 255
  (List.range 16).map fun i =>
    ((fe80Template.getD i 0) &&& (maskBytes.getD i 0)) |||
    ((hash.getD i 0) &&& (notMaskBytes.getD i 0))

/-- The link-local address as the claim words it: high 8 bytes
`fe80:0000:0000:0000`, low 8 bytes the FIRST 8 bytes (bytes 0 through 7) of
the BLAKE2s-256 hash of the seed. -/
def claimedLlaFirstHashBytes (seed : List Nat) : List Nat :=
  [0xfe, 0x80, 0, 0, 0, 0, 0, 0] ++ (blake2s256 seed).take 8

/-! ## STUN client (`src/client/src/network/public_ip.rs`) -/

/-- An IP address: 4 bytes for IPv4 or 16 bytes for IPv6. -/
inductive IpAddrM where
  | v4 (b0 b1 b2 b3 : Nat)
  | v6 (bytes : List Nat)
deriving DecidableEq, Repr

/-- A socket address (IP and port), as compared by the NAT detector. -/
structure SockAddrM where
  ip : IpAddrM
  port : Nat
deriving DecidableEq, Repr

/-- Model of `create_stun_change_request`: a 20-byte Binding Request header with
declared length 8, followed by the CHANGE-REQUEST attribute (type `0x0003`,
length 4) whose big-endian flag word is
`((change_ip as u32) << 1) | ((change_port as u32) << 2)`. -/
def create_stun_change_request (change_ip change_port : Bool) : List Nat :=
  let flags : Nat :=
    ((if change_ip then 1 else 0) <<< 1) ||| ((if change_port then 1 else 0) <<< 2)
  [0x00, 0x01] ++
  [0x00, 0x08] ++
  [0x21, 0x12, 0xa4, 0x42] ++
  List.replicate 12 0x00 ++
  [0x00, 0x03] ++
  [0x00, 0x04] ++
  [flags / 16777216 % 256, flags / 65536 % 256, flags / 256 % 256, flags % 256]

/-- The 28-byte CHANGE-REQUEST Binding Request as the claim describes it:
same header and attribute framing but with the big-endian flag word
`((change_ip as u32) << 2) | ((change_port as u32) << 1)` (bit 2 = change
IP, bit 1 = change port). -/
def claimedStunChangeRequest (change_ip change_port : Bool) : List Nat :=
  let flags : Nat :=
    ((if change_ip then 1 else 0) <<< 2) ||| ((if change_port then 1 else 0) <<< 1)
  [0x00, 0x01] ++
  [0x00, 0x08] ++
  [0x21, 0x12, 0xa4, 0x42] ++
  List.replicate 12 0x00 ++
  [0x00, 0x03] ++
  [0x00, 0x04] ++
  [flags / 16777216 % 256, flags / 65536 % 256, flags / 256 % 256, flags % 256]

/-- The attribute-walking loop of `parse_mapped_socket_addr`: scan TLVs from
`offset` while `offset + 4 <= 20 + response_len`, returning the
XOR-MAPPED-ADDRESS when found and advancing over 4-byte-padded values
otherwise.  `fuel` bounds the recursion; the loop consumes at least 4 bytes
of the window per step, so `response.length` fuel always suffices. -/
def parseMappedAttrLoop (response : List Nat) (response_len : Nat) :
    Nat → Nat → Except String SockAddrM
  | 0, _ => .error "No mapped address found in STUN response"
  | fuel + 1, offset =>
    if offset + 4 ≤ 20 + response_len then
      let attr_type := (response.getD offset 0) * 256 + response.getD (offset + 1) 0
      let attr_len := (response.getD (offset + 2) 0) * 256 + response.getD (offset + 3) 0
      let attr_data_offset := offset + 4
      let padded_len := (attr_len + 3) / 4 * 4
      if attr_type == 0x0020 && attr_data_offset + attr_len ≤ response.length then
        let data := (response.drop attr_data_offset).take attr_len
        let family := data.getD 1 0
        if family == 0x01 then
          let port := ((data.getD 2 0) ^^^ 0x21) * 256 + ((data.getD 3 0) ^^^ 0x12)
          .ok { ip := .v4 ((data.getD 4 0) ^^^ 0x21) ((data.getD 5 0) ^^^ 0x12)
                         ((data.getD 6 0) ^^^ 0xa4) ((data.getD 7 0) ^^^ 0x42)
                port := port }
        else if family == 0x02 then
          let port := ((data.getD 2 0) ^^^ 0x21) * 256 + ((data.getD 3 0) ^^^ 0x12)
          let magic : List Nat := [0x21, 0x12, 0xa4, 0x42]
          let bytes := (List.range 16).map fun i =>
            if i < 4 then (data.getD (4 + i) 0) ^^^ (magic.getD i 0)
            else data.getD (4 + i) 0
          .ok { ip := .v6 bytes, port := port }
        else
          parseMappedAttrLoop response response_len fuel (attr_data_offset + padded_len)
      else
        parseMappedAttrLoop response response_len fuel (attr_data_offset + padded_len)
    else
      .error "No mapped address found in STUN response"

/-- Model of `parse_mapped_socket_addr`: check the 20-byte header and the declared
length, then walk the attributes for an XOR-MAPPED-ADDRESS. -/
def parse_mapped_socket_addr (response : List Nat) : Except String SockAddrM :=
  if response.length < 20 then
    .error "STUN response too short"
  else
    let response_len := (response.getD 2 0) * 256 + response.getD 3 0
    if response.length < 20 + response_len then
      .error "STUN response incomplete"
    else
      parseMappedAttrLoop response response_len response.length 20

/-- A well-formed STUN Binding Response (type `0x0101`, zero transaction id)
carrying a single XOR-MAPPED-ADDRESS attribute that encodes the IPv4 address
`(a0, a1, a2, a3)` and port `p`: the address bytes are XORed with the magic
cookie `21 12 a4 42` and the big-endian port bytes with the first two cookie
bytes. -/
def xorMappedStunResponse (a0 a1 a2 a3 p : Nat) : List Nat :=
  [0x01, 0x01] ++
  [0x00, 0x0c] ++
  [0x21, 0x12, 0xa4, 0x42] ++
  List.replicate 12 0x00 ++
  [0x00, 0x20] ++
  [0x00, 0x08] ++
  [0x00, 0x01, (p / 256) ^^^ 0x21, (p % 256) ^^^ 0x12,
   a0 ^^^ 0x21, a1 ^^^ 0x12, a2 ^^^ 0xa4, a3 ^^^ 0x42]

/-- The NAT types of RFC 5780 behavior discovery. -/
inductive NatType where
  | OpenInternet
  | EndpointIndependentNoFiltering
  | EndpointIndependentAddressFiltering
  | EndpointIndependentAddressPortFiltering
  | AddressDependentMapping
  | AddressPortDependentMapping
  | NoUdpConnectivity
  | Unknown
deriving DecidableEq, Repr

/-- The decision core of `detect_nat_type_rfc5780`, with the four network
tests abstracted into oracles: `test1` is the basic Binding result (mapped
address and local interface IP, `none` on failure), `test2_ok` whether the
change-IP+port request got a response, `test3_ok` whether the change-port
request would get one (the source only issues it when Test II failed:
`test3_response` is `Ok(())` otherwise), and `test4` the mapped address
reported by the alternate server (`none` when that query fails or no
alternate server is available). -/
def detect_nat_type_rfc5780 (test1 : Option (SockAddrM × IpAddrM))
    (test2_ok test3_ok : Bool) (test4 : Option SockAddrM) : NatType :=
  match test1 with
  | none => .NoUdpConnectivity
  | some (test1_mapped_addr, local_interface_ip) =>
    if test1_mapped_addr.ip = local_interface_ip then
      .OpenInternet
    else
      let test3_response := if test2_ok then true else test3_ok
      let mapping_behavior :=
        match test4 with
        | some alt_mapped =>
          if alt_mapped = test1_mapped_addr then "endpoint-independent"
          else if alt_mapped.ip = test1_mapped_addr.ip then "address-dependent"
          else "address-port-dependent"
        | none => "unknown"
      match mapping_behavior with
      | "endpoint-independent" =>
        if test2_ok then .EndpointIndependentNoFiltering
        else if test3_response then .EndpointIndependentAddressFiltering
        else .EndpointIndependentAddressPortFiltering
      | "address-dependent" => .AddressDependentMapping
      | "address-port-dependent" => .AddressPortDependentMapping
      | _ => .Unknown

/-! ## IPC shared secret (`src/client/src/daemon/protocol.rs`) -/

/-- Model of `SharedSecret::verify`: length check followed by a constant-time fold
that ORs the XOR of each byte pair; both compared strings are byte strings
(`as_bytes`), modelled as `List Nat`. -/
def SharedSecret.verify (secret candidate : List Nat) : Bool :=
  secret.length == candidate.length &&
    (secret.zip candidate).foldl (fun acc p => acc ||| (p.1 ^^^ p.2)) 0 == 0

/-! ## Theorems -/

theorem or_eq_zero_of_nat (a b : Nat) : a ||| b = 0 ↔ a = 0 ∧ b = 0 := by
  constructor
  · intro h
    constructor <;>
      · apply Nat.eq_of_testBit_eq
        intro i
        have h2 := congrArg (fun x => x.testBit i) h
        simp only [Nat.testBit_or, Nat.zero_testBit, Bool.or_eq_false_iff] at h2
        simp [h2.1, h2.2]
  · rintro ⟨rfl, rfl⟩
    rfl

theorem foldl_or_xor_eq_zero (l : List (Nat × Nat)) (acc : Nat) :
    (l.foldl (fun acc p => acc ||| (p.1 ^^^ p.2)) acc = 0) ↔
      (acc = 0 ∧ ∀ p ∈ l, p.1 = p.2) := by
  induction l generalizing acc with
  | nil => simp
  | cons hd tl ih =>
    simp only [List.foldl_cons, ih, List.mem_cons, or_eq_zero_of_nat, Nat.xor_eq_zero]
    constructor
    · rintro ⟨⟨h1, h2⟩, h3⟩
      exact ⟨h1, fun p hp => by rcases hp with rfl | hp; exact h2; exact h3 p hp⟩
    · rintro ⟨h1, h2⟩
      exact ⟨⟨h1, h2 hd (Or.inl rfl)⟩, fun p hp => h2 p (Or.inr hp)⟩

theorem zip_self_fst_eq_snd (l : List Nat) : ∀ p ∈ l.zip l, p.1 = p.2 := by
  induction l with
  | nil => simp
  | cons a t ih =>
    intro p hp
    rcases List.mem_cons.mp hp with rfl | hp
    · rfl
    · exact ih p hp

theorem zip_forall_eq (s c : List Nat) (hlen : s.length = c.length)
    (hp : ∀ p ∈ s.zip c, p.1 = p.2) : s = c := by
  induction s generalizing c with
  | nil => cases c with | nil => rfl | cons _ _ => simp at hlen
  | cons a s ih =>
    cases c with
    | nil => simp at hlen
    | cons b c =>
      simp only [List.zip_cons_cons, List.mem_cons] at hp
      have hab : a = b := hp (a, b) (Or.inl rfl)
      simp only [List.length_cons, Nat.add_right_cancel_iff] at hlen
      rw [hab, ih c hlen fun p pm => hp p (Or.inr pm)]

/-- C10: for every stored shared secret and every candidate byte string,
`SharedSecret.verify` returns true if and only if the candidate is
byte-for-byte equal to the stored secret; in particular it returns false
whenever the two lengths differ. -/
theorem shared_secret_verify_iff (secret candidate : List Nat) :
    (SharedSecret.verify secret candidate = true ↔ secret = candidate) ∧
    (secret.length ≠ candidate.length →
      SharedSecret.verify secret candidate = false) := by
  constructor
  · constructor
    · intro h
      simp only [SharedSecret.verify, Bool.and_eq_true, beq_iff_eq] at h
      exact zip_forall_eq _ _ h.1 ((foldl_or_xor_eq_zero _ _).mp h.2).2
    · rintro rfl
      simp only [SharedSecret.verify, Bool.and_eq_true, beq_iff_eq]
      exact ⟨by trivial, (foldl_or_xor_eq_zero _ _).mpr ⟨rfl, zip_self_fst_eq_snd _⟩⟩
  · intro h
    simp [SharedSecret.verify, h]

/-- C10 witness: the length-mismatch consequence applied at a concrete pair
of byte strings of different lengths. -/
theorem shared_secret_verify_iff_witness :
    ([97, 98] : List Nat).length ≠ ([97] : List Nat).length ∧
      SharedSecret.verify [97, 98] [97] = false :=
  ⟨by decide, (shared_secret_verify_iff [97, 98] [97]).2 (by decide)⟩

-- ### C5
/-- C5 counterexample: with `change_ip = true` and `change_port = false` the
request the source builds differs from the claimed request whose flag word is
`(change_ip << 2) | (change_port << 1)` (RFC bit ordering). -/
theorem create_stun_change_request_flag_counterexample :
    create_stun_change_request true false ≠ claimedStunChangeRequest true false := by
  decide

/-- C5 amended: for all booleans, the CHANGE-REQUEST Binding Request is the
28-byte message — 20-byte header with length field 8, magic cookie, zero
transaction id, attribute type 0x0003 of length 4 — whose big-endian flag
word is `(change_ip << 1) | (change_port << 2)`, i.e. bit 1 of the flag word
is change-IP and bit 2 is change-port. -/
theorem create_stun_change_request_spec (change_ip change_port : Bool) :
    create_stun_change_request change_ip change_port =
      [0x00, 0x01, 0x00, 0x08, 0x21, 0x12, 0xa4, 0x42,
       0, 0, 0, 0, 0, 0, 0, 0, 0, 0, 0, 0,
       0x00, 0x03, 0x00, 0x04,
       0, 0, 0,
       ((if change_ip then 1 else 0) <<< 1) |||
         ((if change_port then 1 else 0) <<< 2)] ∧
    (create_stun_change_request change_ip change_port).length = 28 := by
  cases change_ip <;> cases change_port <;> exact ⟨by decide, by decide⟩

-- ### C9
set_option maxRecDepth 8000 in
set_option maxHeartbeats 2000000 in
/-- C9: for every IPv4 address `(a0, a1, a2, a3)` and every port `p`,
parsing a well-formed STUN Binding Response that carries an
XOR-MAPPED-ADDRESS attribute encoding them — address bytes XORed with the
magic cookie, big-endian port bytes XORed with the first two cookie bytes —
returns exactly that address and port: parsing is a left inverse of the XOR
encoding. -/
theorem parse_xor_mapped_address_roundtrip (a0 a1 a2 a3 p : Nat) :
    parse_mapped_socket_addr (xorMappedStunResponse a0 a1 a2 a3 p) =
      .ok { ip := .v4 a0 a1 a2 a3, port := p } := by
  have h : parse_mapped_socket_addr (xorMappedStunResponse a0 a1 a2 a3 p) =
      .ok { ip := .v4 ((a0 ^^^ 0x21) ^^^ 0x21) ((a1 ^^^ 0x12) ^^^ 0x12)
                     ((a2 ^^^ 0xa4) ^^^ 0xa4) ((a3 ^^^ 0x42) ^^^ 0x42)
            port := (((p / 256) ^^^ 0x21) ^^^ 0x21) * 256 +
                    (((p % 256) ^^^ 0x12) ^^^ 0x12) } := rfl
  rw [h]
  simp only [Nat.xor_assoc, Nat.xor_self, Nat.xor_zero]
  congr 1
  simp only [SockAddrM.mk.injEq, and_true, true_and]
  omega

-- ### C7
/-- C7: the NAT classification returns `NoUdpConnectivity` when Test I
yields nothing; `OpenInternet` when the mapped IP equals the local interface
IP; its result is independent of the Test III oracle when Test II succeeded
(Test III is only issued after a Test II failure); and otherwise it follows
the decision matrix — with endpoint-independent mapping (alternate-server
mapped address equal to Test I's) it returns the filtering variants
according to Tests II and III, with address-dependent mapping
`AddressDependentMapping`, with address-port-dependent mapping
`AddressPortDependentMapping`, and `Unknown` when no mapping information is
available. -/
theorem detect_nat_type_rfc5780_spec :
    (∀ t2 t3 t4, detect_nat_type_rfc5780 none t2 t3 t4 = .NoUdpConnectivity) ∧
    (∀ m l t2 t3 t4, m.ip = l →
      detect_nat_type_rfc5780 (some (m, l)) t2 t3 t4 = .OpenInternet) ∧
    (∀ m l t3 t3' t4,
      detect_nat_type_rfc5780 (some (m, l)) true t3 t4 =
        detect_nat_type_rfc5780 (some (m, l)) true t3' t4) ∧
    (∀ m l t3, m.ip ≠ l →
      detect_nat_type_rfc5780 (some (m, l)) true t3 (some m) =
        .EndpointIndependentNoFiltering) ∧
    (∀ m l, m.ip ≠ l →
      detect_nat_type_rfc5780 (some (m, l)) false true (some m) =
        .EndpointIndependentAddressFiltering) ∧
    (∀ m l, m.ip ≠ l →
      detect_nat_type_rfc5780 (some (m, l)) false false (some m) =
        .EndpointIndependentAddressPortFiltering) ∧
    (∀ m l t2 t3 alt, m.ip ≠ l → alt ≠ m → alt.ip = m.ip →
      detect_nat_type_rfc5780 (some (m, l)) t2 t3 (some alt) =
        .AddressDependentMapping) ∧
    (∀ m l t2 t3 alt, m.ip ≠ l → alt.ip ≠ m.ip →
      detect_nat_type_rfc5780 (some (m, l)) t2 t3 (some alt) =
        .AddressPortDependentMapping) ∧
    (∀ m l t2 t3, m.ip ≠ l →
      detect_nat_type_rfc5780 (some (m, l)) t2 t3 none = .Unknown) := by
  refine ⟨fun t2 t3 t4 => rfl, ?_, ?_, ?_, ?_, ?_, ?_, ?_, ?_⟩
  · intro m l t2 t3 t4 h
    simp [detect_nat_type_rfc5780, h]
  · intro m l t3 t3' t4
    simp [detect_nat_type_rfc5780]
  · intro m l t3 h
    simp [detect_nat_type_rfc5780, h]
  · intro m l h
    simp [detect_nat_type_rfc5780, h]
  · intro m l h
    simp [detect_nat_type_rfc5780, h]
  · intro m l t2 t3 alt h halt hip
    have hne : alt ≠ m := halt
    simp [detect_nat_type_rfc5780, h, hne, hip]
  · intro m l t2 t3 alt h hip
    have hne : alt ≠ m := fun he => hip (he ▸ rfl)
    simp [detect_nat_type_rfc5780, h, hne, hip]
  · intro m l t2 t3 h
    simp [detect_nat_type_rfc5780, h]

/-- C7 witness: the classification theorem applied at concrete test
outcomes for three of its cases. -/
theorem detect_nat_type_rfc5780_spec_witness :
    detect_nat_type_rfc5780
        (some ({ ip := .v4 1 2 3 4, port := 1000 }, .v4 10 0 0 1)) true false
        (some { ip := .v4 1 2 3 4, port := 1000 }) =
      .EndpointIndependentNoFiltering ∧
    detect_nat_type_rfc5780
        (some ({ ip := .v4 1 2 3 4, port := 1000 }, .v4 1 2 3 4)) false false
        none =
      .OpenInternet ∧
    detect_nat_type_rfc5780
        (some ({ ip := .v4 1 2 3 4, port := 1000 }, .v4 10 0 0 1)) false true
        (some { ip := .v4 1 2 3 4, port := 2000 }) =
      .AddressDependentMapping :=
  ⟨detect_nat_type_rfc5780_spec.2.2.2.1 _ _ _ (by decide),
   detect_nat_type_rfc5780_spec.2.1 _ _ _ _ _ (by decide),
   detect_nat_type_rfc5780_spec.2.2.2.2.2.2.1 _ _ _ _ _ (by decide) (by decide) (by decide)⟩

-- ### C1
/-- C1: evaluation of the list-tunnels projection at the failing input.
Node 7 is peer2 of the descriptor and `endpoint_peer1` is set to
`1.2.3.4:51820`, yet the returned view carries `remote_endpoint = none`
(the value of the requester's own `endpoint_peer2`) instead of
`endpoint_peer1`, while `local_answered` and `remote_response` are swapped
correctly. -/
theorem get_wireguard_tunnels_peer2_view_eval :
    get_wireguard_tunnels
        { tunnels := [{ id := 1, node_id_peer1 := 5, node_id_peer2 := 7,
                        endpoint_peer1 := some "1.2.3.4:51820",
                        endpoint_peer2 := none,
                        peer1_answered := 1, peer2_answered := 0, mtu := 1420,
                        endpoint_ipv6 := false, created_at := 0, updated_at := 0 }],
          next_tunnel_id := 2, meshes := [], memberships := [], node_ids := [],
          static_keys := [] } 7 =
      [{ tunnel_id := 1, peer_node_id := 5, public_key := "",
         remote_endpoint := none, local_answered := 0, remote_response := 1,
         mtu := 1420, endpoint_ipv6 := false, created_at := 0, updated_at := 0 }] := by
  decide

-- ### C2
/-- C2 counterexample: a call from node 9, which is neither peer of
tunnel 1, is not a no-op — it overwrites `endpoint_peer2`,
`peer2_answered` and `updated_at` of the descriptor. -/
theorem answer_wireguard_tunnel_nonpeer_counterexample :
    answer_wireguard_tunnel
        { tunnels := [{ id := 1, node_id_peer1 := 5, node_id_peer2 := 7,
                        endpoint_peer1 := none, endpoint_peer2 := none,
                        peer1_answered := 0, peer2_answered := 0, mtu := 1420,
                        endpoint_ipv6 := false, created_at := 0, updated_at := 0 }],
          next_tunnel_id := 2, meshes := [], memberships := [], node_ids := [],
          static_keys := [] } 1 9 (some "9.9.9.9:1") none 100 =
      { tunnels := [{ id := 1, node_id_peer1 := 5, node_id_peer2 := 7,
                      endpoint_peer1 := none, endpoint_peer2 := some "9.9.9.9:1",
                      peer1_answered := 0, peer2_answered := 1, mtu := 1420,
                      endpoint_ipv6 := false, created_at := 0, updated_at := 100 }],
        next_tunnel_id := 2, meshes := [], memberships := [], node_ids := [],
        static_keys := [] } := by
  decide

/-- C2 amended: whenever the calling node is not `peer1` of any row with
the given tunnel id — in particular when it is a non-peer —
`answer_wireguard_tunnel` updates the peer-2 side of every row with that id
(`endpoint_peer2 := endpoint`, `peer2_answered :=` the decline code or
`Answered`, `updated_at := now`), leaves all other fields and rows
unchanged, and raises no error. -/
theorem answer_wireguard_tunnel_nonpeer1_updates_peer2
    (db : ServerDb) (tunnel_id_val node_id_val : Int) (endpoint : Option String)
    (decline_type : Option Int) (now : Int)
    (h : ∀ t ∈ db.tunnels, ¬(t.id = tunnel_id_val ∧ t.node_id_peer1 = node_id_val)) :
    answer_wireguard_tunnel db tunnel_id_val node_id_val endpoint decline_type now =
      { db with tunnels := db.tunnels.map fun t =>
          if t.id = tunnel_id_val then
            { t with
              peer2_answered := match decline_type with
                | some decline => decline
                | none => 1
              endpoint_peer2 := endpoint
              updated_at := now }
          else t } := by
  have hfind : (db.tunnels.find? fun t =>
      t.id == tunnel_id_val && t.node_id_peer1 == node_id_val) = none := by
    rw [List.find?_eq_none]
    intro t ht
    have := h t ht
    simp only [Bool.and_eq_true, beq_iff_eq]
    tauto
  simp only [answer_wireguard_tunnel, hfind, Option.isSome_none, Bool.false_eq_true,
    if_false]
  congr 1
  apply List.map_congr_left
  intro t ht
  by_cases hid : t.id = tunnel_id_val <;> simp [hid]

/-- C2 witness: the amended theorem applied to a concrete database and a
non-peer caller. -/
theorem answer_wireguard_tunnel_nonpeer1_updates_peer2_witness :
    (∀ t ∈ ({ tunnels := [{
                id := 1, node_id_peer1 := 5, node_id_peer2 := 7,
                endpoint_peer1 := none, endpoint_peer2 := none,
                peer1_answered := 0, peer2_answered := 0, mtu := 1420,
                endpoint_ipv6 := false, created_at := 0, updated_at := 0 }],
              next_tunnel_id := 2, meshes := [], memberships := [], node_ids := [],
              static_keys := [] } : ServerDb).tunnels,
        ¬(t.id = 1 ∧ t.node_id_peer1 = 9)) ∧
    answer_wireguard_tunnel
        { tunnels := [{
            id := 1, node_id_peer1 := 5, node_id_peer2 := 7,
            endpoint_peer1 := none, endpoint_peer2 := none,
            peer1_answered := 0, peer2_answered := 0, mtu := 1420,
            endpoint_ipv6 := false, created_at := 0, updated_at := 0 }],
          next_tunnel_id := 2, meshes := [], memberships := [], node_ids := [],
          static_keys := [] } 1 9 (some "e") (some 2) 77 =
      { tunnels := [{
          id := 1, node_id_peer1 := 5, node_id_peer2 := 7,
          endpoint_peer1 := none, endpoint_peer2 := some "e",
          peer1_answered := 0, peer2_answered := 2, mtu := 1420,
          endpoint_ipv6 := false, created_at := 0, updated_at := 77 }],
        next_tunnel_id := 2, meshes := [], memberships := [], node_ids := [],
        static_keys := [] } :=
  ⟨by decide, by
    rw [answer_wireguard_tunnel_nonpeer1_updates_peer2 _ 1 9 (some "e") (some 2) 77
      (by decide)]
    decide⟩

-- ### C6
/-- C6: `create_wireguard_tunnel` inserts exactly one new descriptor (with
null endpoints, `Unanswered` answers and the requested mtu and ipv6 flag)
when no descriptor with the same unordered pair and the same ipv6 flag
exists, and otherwise returns the duplicate error, leaving the tunnel table
unchanged. -/
theorem create_wireguard_tunnel_pair_unique (db : ServerDb) (a b mtu_val : Int)
    (ipv6 : Bool) (now : Int) :
    ((∀ t ∈ db.tunnels,
        ¬(((t.node_id_peer1 = a ∧ t.node_id_peer2 = b) ∨
           (t.node_id_peer1 = b ∧ t.node_id_peer2 = a)) ∧
          t.endpoint_ipv6 = ipv6)) →
      create_wireguard_tunnel db a b mtu_val ipv6 now =
        .ok { db with
              tunnels := db.tunnels ++
                [{ id := db.next_tunnel_id, node_id_peer1 := a, node_id_peer2 := b,
                   endpoint_peer1 := none, endpoint_peer2 := none,
                   peer1_answered := 0, peer2_answered := 0, mtu := mtu_val,
                   endpoint_ipv6 := ipv6, created_at := now, updated_at := now }],
              next_tunnel_id := db.next_tunnel_id + 1 }) ∧
    (∀ t ∈ db.tunnels,
      ((t.node_id_peer1 = a ∧ t.node_id_peer2 = b) ∨
       (t.node_id_peer1 = b ∧ t.node_id_peer2 = a)) →
      t.endpoint_ipv6 = ipv6 →
      create_wireguard_tunnel db a b mtu_val ipv6 now = .error .notFound) := by
  constructor
  · intro h
    have hfind : db.tunnels.find? (tunnelPairMatches a b ipv6) = none := by
      rw [List.find?_eq_none]
      intro t ht
      have := h t ht
      simp only [tunnelPairMatches, Bool.and_eq_true, Bool.or_eq_true, beq_iff_eq]
      tauto
    simp [create_wireguard_tunnel, hfind]
  · intro t ht hpair hflag
    have hfind : (db.tunnels.find? (tunnelPairMatches a b ipv6)).isSome := by
      rw [List.find?_isSome]
      refine ⟨t, ht, ?_⟩
      simp only [tunnelPairMatches, Bool.and_eq_true, Bool.or_eq_true, beq_iff_eq]
      tauto
    simp [create_wireguard_tunnel, hfind]

/-- C6 witness: the pair-uniqueness scenario.  `create_tunnel(5, 7, 1420, false)`
on an empty table succeeds; on the resulting table
`create_tunnel(7, 5, 1500, false)` fails with the duplicate error while
`create_tunnel(5, 7, 1500, true)` succeeds. -/
theorem create_wireguard_tunnel_pair_unique_witness :
    create_wireguard_tunnel
        { tunnels := [], next_tunnel_id := 1, meshes := [], memberships := [],
          node_ids := [], static_keys := [] } 5 7 1420 false 10 =
      .ok { tunnels := [{
              id := 1, node_id_peer1 := 5, node_id_peer2 := 7,
              endpoint_peer1 := none, endpoint_peer2 := none,
              peer1_answered := 0, peer2_answered := 0, mtu := 1420,
              endpoint_ipv6 := false, created_at := 10, updated_at := 10 }],
            next_tunnel_id := 2, meshes := [], memberships := [], node_ids := [],
            static_keys := [] } ∧
    create_wireguard_tunnel
        { tunnels := [{
            id := 1, node_id_peer1 := 5, node_id_peer2 := 7,
            endpoint_peer1 := none, endpoint_peer2 := none,
            peer1_answered := 0, peer2_answered := 0, mtu := 1420,
            endpoint_ipv6 := false, created_at := 10, updated_at := 10 }],
          next_tunnel_id := 2, meshes := [], memberships := [], node_ids := [],
          static_keys := [] } 7 5 1500 false 11 = .error .notFound ∧
    create_wireguard_tunnel
        { tunnels := [{
            id := 1, node_id_peer1 := 5, node_id_peer2 := 7,
            endpoint_peer1 := none, endpoint_peer2 := none,
            peer1_answered := 0, peer2_answered := 0, mtu := 1420,
            endpoint_ipv6 := false, created_at := 10, updated_at := 10 }],
          next_tunnel_id := 2, meshes := [], memberships := [], node_ids := [],
          static_keys := [] } 5 7 1500 true 11 =
      .ok { tunnels := [{
              id := 1, node_id_peer1 := 5, node_id_peer2 := 7,
              endpoint_peer1 := none, endpoint_peer2 := none,
              peer1_answered := 0, peer2_answered := 0, mtu := 1420,
              endpoint_ipv6 := false, created_at := 10, updated_at := 10 },
            { id := 2, node_id_peer1 := 5, node_id_peer2 := 7,
              endpoint_peer1 := none, endpoint_peer2 := none,
              peer1_answered := 0, peer2_answered := 0, mtu := 1500,
              endpoint_ipv6 := true, created_at := 11, updated_at := 11 }],
            next_tunnel_id := 3, meshes := [], memberships := [], node_ids := [],
            static_keys := [] } := by
  refine ⟨?_, ?_, ?_⟩
  · exact (create_wireguard_tunnel_pair_unique _ 5 7 1420 false 10).1 (by decide)
  · exact (create_wireguard_tunnel_pair_unique _ 7 5 1500 false 11).2
      { id := 1, node_id_peer1 := 5, node_id_peer2 := 7,
        endpoint_peer1 := none, endpoint_peer2 := none,
        peer1_answered := 0, peer2_answered := 0, mtu := 1420,
        endpoint_ipv6 := false, created_at := 10, updated_at := 10 }
      (by decide) (by decide) (by decide)
  · exact (create_wireguard_tunnel_pair_unique _ 5 7 1500 true 11).1 (by decide)

-- ### C4
theorem wg_byte0_eq (p : Nat) :
    (0b11100 <<< 3) ||| ((p >>> 12) &&& 0b00000111) = 224 + p / 4096 % 8 := by
  have h1 := Nat.and_pow_two_sub_one_eq_mod (p >>> 12) 3
  norm_num at h1
  have h8 : p >>> 12 % 8 < 8 := Nat.mod_lt _ (by norm_num)
  have hor : ∀ x, x < 8 → 224 ||| x = 224 + x := by decide
  rw [show (0b11100 <<< 3 : Nat) = 224 by decide, h1, hor _ h8]
  omega

theorem wg_byte1_eq (p : Nat) : (p >>> 4) &&& 255 = p / 16 % 256 := by
  have h1 := Nat.and_pow_two_sub_one_eq_mod (p >>> 4) 8
  norm_num at h1
  omega

theorem wg_byte2_eq (p : Nat) (i f k : Bool) :
    (if k then
       (if f then
          (if i then ((p &&& 15) <<< 4) ||| 8 else (p &&& 15) <<< 4) ||| 4
        else (if i then ((p &&& 15) <<< 4) ||| 8 else (p &&& 15) <<< 4)) ||| 2
     else
       (if f then
          (if i then ((p &&& 15) <<< 4) ||| 8 else (p &&& 15) <<< 4) ||| 4
        else (if i then ((p &&& 15) <<< 4) ||| 8 else (p &&& 15) <<< 4))) =
    (p % 16) * 16 + (if i then 8 else 0) + (if f then 4 else 0) +
      (if k then 2 else 0) := by
  have h1 := Nat.and_pow_two_sub_one_eq_mod p 4
  norm_num at h1
  rw [h1]
  have h16 : p % 16 < 16 := Nat.mod_lt _ (by norm_num)
  revert h16
  generalize p % 16 = q
  intro h16
  revert i f k
  revert h16
  revert q
  decide

theorem wg_byte3_eq (t : Nat) : (t >>> 8) &&& 255 = t / 256 % 256 := by
  have h1 := Nat.and_pow_two_sub_one_eq_mod (t >>> 8) 8
  norm_num at h1
  omega

theorem wg_byte4_eq (t : Nat) : t &&& 255 = t % 256 := by
  have h1 := Nat.and_pow_two_sub_one_eq_mod t 8
  norm_num at h1
  omega

theorem wg_pack_eq (tunnel_id peer_node_id : Nat) (i f k : Bool) :
    bytesToNatBE (wg_bit_slice tunnel_id peer_node_id i f k) =
      specPackedBitfield tunnel_id peer_node_id i f k := by
  simp only [wg_bit_slice, bytesToNatBE, List.foldl_cons, List.foldl_nil]
  rw [wg_byte0_eq, wg_byte1_eq, wg_byte2_eq, wg_byte3_eq, wg_byte4_eq]
  simp only [specPackedBitfield]
  cases i <;> cases f <;> cases k <;> simp only [Bool.false_eq_true, if_true,
    if_false] <;> omega

/-- C4: the interface name derived by `gen_new_wg_tunnel` equals the
literal `cat` followed by the first 12 characters of the Crockford base-32
encoding of the 8-byte big-endian bitfield in which bits 0-4 are `11100`,
bits 5-19 the 15 least-significant bits of the peer node id, bit 20 the
`endpoint_ipv6` flag, bit 21 `fec`, bit 22 `faketcp`, bit 23 zero, bits
24-39 the 16 least-significant bits of the tunnel id, and all remaining
bits zero. -/
theorem gen_new_wg_tunnel_ifname_spec (tunnel_id peer_node_id : Nat)
    (endpoint_ipv6 fec faketcp : Bool) :
    gen_new_wg_tunnel_ifname tunnel_id peer_node_id endpoint_ipv6 fec faketcp =
      specIfaceName tunnel_id peer_node_id endpoint_ipv6 fec faketcp := by
  simp only [gen_new_wg_tunnel_ifname, specIfaceName, base32CrockfordOf8Bytes,
    wg_pack_eq]

-- ### C3
theorem blakeCompress_length (h block : List Nat) (t : Nat) (f : Bool) :
    (blakeCompress h block t f).length = 8 := by
  simp [blakeCompress]

theorem blake2sBlocksLoop_length (blocks : List (List Nat)) (h : List Nat)
    (t : Nat) (hh : h.length = 8) :
    (blake2sBlocksLoop h t blocks).length = 8 := by
  induction blocks generalizing h t with
  | nil => simpa [blake2sBlocksLoop]
  | cons b rest ih =>
    cases rest with
    | nil => simp [blake2sBlocksLoop, blakeCompress_length]
    | cons r rs =>
      simpa [blake2sBlocksLoop] using ih _ _ (blakeCompress_length _ _ _ _)

theorem flatMap_word_bytes_length (l : List Nat) :
    (l.flatMap fun w =>
      [w % 256, w >>> 8 % 256, w >>> 16 % 256, w >>> 24 % 256]).length =
      4 * l.length := by
  induction l with
  | nil => simp
  | cons a t ih => simp [ih]; omega

theorem blake2s256_length (input : List Nat) :
    (blake2s256 input).length = 32 := by
  simp only [blake2s256, flatMap_word_bytes_length]
  rw [blake2sBlocksLoop_length]
  simp [blakeIV]

theorem blake2s256_getD_lt (input : List Nat) (i : Nat) :
    (blake2s256 input).getD i 0 < 256 := by
  rcases Nat.lt_or_ge i (blake2s256 input).length with hi | hi
  · rw [List.getD_eq_getElem _ _ hi]
    have hm : (blake2s256 input)[i] ∈ blake2s256 input := List.getElem_mem _
    generalize (blake2s256 input)[i] = x at hm
    simp only [blake2s256, List.mem_flatMap, List.mem_cons, List.not_mem_nil,
      or_false] at hm
    obtain ⟨w, _, hmem⟩ := hm
    rcases hmem with rfl | rfl | rfl | rfl <;> exact Nat.mod_lt _ (by norm_num)
  · rw [List.getD_eq_default _ _ hi]
    norm_num

set_option maxRecDepth 10000 in
/-- C3 counterexample: for the interface name `catW2NWG4HM0000` the
derived link-local address differs from the address whose low 8 bytes are
the FIRST 8 bytes of the BLAKE2s-256 hash, as the claim states it. -/
theorem generate_ipv6_lla_counterexample :
    generate_ipv6_lla_from_seed
        [99, 97, 116, 87, 50, 78, 87, 71, 52, 72, 77, 48, 48, 48, 48] ≠
      claimedLlaFirstHashBytes
        [99, 97, 116, 87, 50, 78, 87, 71, 52, 72, 77, 48, 48, 48, 48] := by
  decide

/-- C3 amended: for every seed, the derived IPv6 link-local address has
high 8 bytes `fe80:0000:0000:0000` and low 8 bytes equal to bytes 8
through 15 (not 0 through 7) of the BLAKE2s-256 hash of the seed, whose
digest is 32 bytes long. -/
theorem generate_ipv6_lla_from_seed_spec (seed : List Nat) :
    generate_ipv6_lla_from_seed seed =
      [0xfe, 0x80, 0, 0, 0, 0, 0, 0,
       (blake2s256 seed).getD 8 0, (blake2s256 seed).getD 9 0,
       (blake2s256 seed).getD 10 0, (blake2s256 seed).getD 11 0,
       (blake2s256 seed).getD 12 0, (blake2s256 seed).getD 13 0,
       (blake2s256 seed).getD 14 0, (blake2s256 seed).getD 15 0] ∧
    (blake2s256 seed).length = 32 := by
  refine ⟨?_, blake2s256_length seed⟩
  have e : ∀ x : Nat, x < 256 → x &&& 255 = x := by
    intro x hx
    have h := Nat.and_pow_two_sub_one_eq_mod x 8
    norm_num at h
    omega
  show [254 ||| ((blake2s256 seed).getD 0 0 &&& 0),
        128 ||| ((blake2s256 seed).getD 1 0 &&& 0),
        0 ||| ((blake2s256 seed).getD 2 0 &&& 0),
        0 ||| ((blake2s256 seed).getD 3 0 &&& 0),
        0 ||| ((blake2s256 seed).getD 4 0 &&& 0),
        0 ||| ((blake2s256 seed).getD 5 0 &&& 0),
        0 ||| ((blake2s256 seed).getD 6 0 &&& 0),
        0 ||| ((blake2s256 seed).getD 7 0 &&& 0),
        0 ||| ((blake2s256 seed).getD 8 0 &&& 255),
        0 ||| ((blake2s256 seed).getD 9 0 &&& 255),
        0 ||| ((blake2s256 seed).getD 10 0 &&& 255),
        0 ||| ((blake2s256 seed).getD 11 0 &&& 255),
        0 ||| ((blake2s256 seed).getD 12 0 &&& 255),
        0 ||| ((blake2s256 seed).getD 13 0 &&& 255),
        0 ||| ((blake2s256 seed).getD 14 0 &&& 255),
        0 ||| ((blake2s256 seed).getD 15 0 &&& 255)] = _
  simp only [Nat.and_zero, Nat.or_zero, Nat.zero_or]
  rw [e _ (blake2s256_getD_lt seed 8), e _ (blake2s256_getD_lt seed 9),
    e _ (blake2s256_getD_lt seed 10), e _ (blake2s256_getD_lt seed 11),
    e _ (blake2s256_getD_lt seed 12), e _ (blake2s256_getD_lt seed 13),
    e _ (blake2s256_getD_lt seed 14), e _ (blake2s256_getD_lt seed 15)]

-- ### C8
/-- Predicate: `t` is a descriptor of the unordered pair of nodes `a` and `b`. -/
abbrev tunnelConnects (a b : Int) (t : WireguardTunnel) : Prop :=
  (t.node_id_peer1 = a ∧ t.node_id_peer2 = b) ∨
  (t.node_id_peer1 = b ∧ t.node_id_peer2 = a)

theorem createOrKeep_spec (db : ServerDb) (p1 p2 mtu_val : Int) (b : Bool)
    (now : Int) :
    ∃ added,
      (createOrKeep db p1 p2 mtu_val b now).tunnels = db.tunnels ++ added ∧
      (createOrKeep db p1 p2 mtu_val b now).memberships = db.memberships ∧
      (createOrKeep db p1 p2 mtu_val b now).meshes = db.meshes ∧
      (createOrKeep db p1 p2 mtu_val b now).node_ids = db.node_ids ∧
      (∀ t ∈ added, t.node_id_peer1 = p1 ∧ t.node_id_peer2 = p2 ∧
        t.mtu = mtu_val ∧ t.endpoint_ipv6 = b) := by
  unfold createOrKeep create_wireguard_tunnel
  by_cases hf : (db.tunnels.find? (tunnelPairMatches p1 p2 b)).isSome = true
  · rw [if_pos hf]
    exact ⟨[], by simp⟩
  · rw [if_neg hf]
    refine ⟨_, rfl, rfl, rfl, rfl, ?_⟩
    intro t ht
    simp only [List.mem_singleton] at ht
    subst ht
    exact ⟨rfl, rfl, rfl, rfl⟩

theorem createOrKeep_pair (db : ServerDb) (p1 p2 mtu_val : Int) (b : Bool)
    (now : Int) :
    ∃ t ∈ (createOrKeep db p1 p2 mtu_val b now).tunnels,
      tunnelConnects p1 p2 t ∧ t.endpoint_ipv6 = b := by
  unfold createOrKeep create_wireguard_tunnel
  by_cases hf : (db.tunnels.find? (tunnelPairMatches p1 p2 b)).isSome = true
  · obtain ⟨t, hfeq⟩ := Option.isSome_iff_exists.mp hf
    have hmem := List.mem_of_find?_eq_some hfeq
    have hpred := List.find?_some hfeq
    simp only [tunnelPairMatches, Bool.and_eq_true, Bool.or_eq_true,
      beq_iff_eq] at hpred
    rw [if_pos hf]
    exact ⟨t, hmem, by tauto, hpred.2⟩
  · rw [if_neg hf]
    refine ⟨_, List.mem_append_right _ (List.mem_singleton_self _),
      Or.inl ⟨rfl, rfl⟩, rfl⟩

theorem createOrKeep_mono (db : ServerDb) (p1 p2 mtu_val : Int) (b : Bool)
    (now : Int) (t : WireguardTunnel) (ht : t ∈ db.tunnels) :
    t ∈ (createOrKeep db p1 p2 mtu_val b now).tunnels := by
  obtain ⟨added, he, -⟩ := createOrKeep_spec db p1 p2 mtu_val b now
  rw [he]
  exact List.mem_append_left _ ht

theorem joinMeshTunnelStep_spec (node_id_val mtu_val now : Int) (db : ServerDb)
    (peer : Int) :
    ∃ added,
      (joinMeshTunnelStep node_id_val mtu_val now db peer).tunnels =
        db.tunnels ++ added ∧
      (joinMeshTunnelStep node_id_val mtu_val now db peer).memberships =
        db.memberships ∧
      (joinMeshTunnelStep node_id_val mtu_val now db peer).meshes = db.meshes ∧
      (joinMeshTunnelStep node_id_val mtu_val now db peer).node_ids =
        db.node_ids ∧
      (∀ t ∈ added, t.node_id_peer1 = node_id_val ∧ t.node_id_peer2 = peer ∧
        t.mtu = mtu_val) := by
  unfold joinMeshTunnelStep
  by_cases hp : peer = node_id_val
  · rw [if_neg (by simp [hp])]
    exact ⟨[], by simp⟩
  · rw [if_pos (by simp [hp])]
    obtain ⟨a1, he1, hm1, hg1, hn1, hf1⟩ :=
      createOrKeep_spec db node_id_val peer mtu_val false now
    obtain ⟨a2, he2, hm2, hg2, hn2, hf2⟩ :=
      createOrKeep_spec (createOrKeep db node_id_val peer mtu_val false now)
        node_id_val peer mtu_val true now
    refine ⟨a1 ++ a2, ?_, ?_, ?_, ?_, ?_⟩
    · rw [he2, he1, List.append_assoc]
    · rw [hm2, hm1]
    · rw [hg2, hg1]
    · rw [hn2, hn1]
    · intro t ht
      rcases List.mem_append.mp ht with h | h
      · exact ⟨(hf1 t h).1, (hf1 t h).2.1, (hf1 t h).2.2.1⟩
      · exact ⟨(hf2 t h).1, (hf2 t h).2.1, (hf2 t h).2.2.1⟩

theorem joinMeshTunnelStep_pair (node_id_val mtu_val now : Int) (db : ServerDb)
    (peer : Int) (hp : peer ≠ node_id_val) (b : Bool) :
    ∃ t ∈ (joinMeshTunnelStep node_id_val mtu_val now db peer).tunnels,
      tunnelConnects node_id_val peer t ∧ t.endpoint_ipv6 = b := by
  unfold joinMeshTunnelStep
  rw [if_pos (by simp [hp])]
  cases b with
  | false =>
    obtain ⟨t, htm, htc⟩ := createOrKeep_pair db node_id_val peer mtu_val false now
    exact ⟨t, createOrKeep_mono _ _ _ _ _ _ t htm, htc⟩
  | true =>
    exact createOrKeep_pair _ node_id_val peer mtu_val true now

theorem joinMeshFold_spec (node_id_val mtu_val now : Int) (l : List Int)
    (db : ServerDb) :
    ∃ added,
      (l.foldl (joinMeshTunnelStep node_id_val mtu_val now) db).tunnels =
        db.tunnels ++ added ∧
      (l.foldl (joinMeshTunnelStep node_id_val mtu_val now) db).memberships =
        db.memberships ∧
      (l.foldl (joinMeshTunnelStep node_id_val mtu_val now) db).meshes =
        db.meshes ∧
      (l.foldl (joinMeshTunnelStep node_id_val mtu_val now) db).node_ids =
        db.node_ids ∧
      (∀ t ∈ added, t.node_id_peer1 = node_id_val ∧ t.mtu = mtu_val) := by
  induction l generalizing db with
  | nil => exact ⟨[], by simp⟩
  | cons q rest ih =>
    simp only [List.foldl_cons]
    obtain ⟨a1, he1, hm1, hg1, hn1, hf1⟩ :=
      joinMeshTunnelStep_spec node_id_val mtu_val now db q
    obtain ⟨a2, he2, hm2, hg2, hn2, hf2⟩ :=
      ih (joinMeshTunnelStep node_id_val mtu_val now db q)
    refine ⟨a1 ++ a2, ?_, ?_, ?_, ?_, ?_⟩
    · rw [he2, he1, List.append_assoc]
    · rw [hm2, hm1]
    · rw [hg2, hg1]
    · rw [hn2, hn1]
    · intro t ht
      rcases List.mem_append.mp ht with h | h
      · exact ⟨(hf1 t h).1, (hf1 t h).2.2⟩
      · exact hf2 t h

theorem joinMeshFold_mono (node_id_val mtu_val now : Int) (l : List Int)
    (db : ServerDb) (t : WireguardTunnel) (ht : t ∈ db.tunnels) :
    t ∈ (l.foldl (joinMeshTunnelStep node_id_val mtu_val now) db).tunnels := by
  obtain ⟨added, he, -⟩ := joinMeshFold_spec node_id_val mtu_val now l db
  rw [he]
  exact List.mem_append_left _ ht

theorem joinMeshFold_pair (node_id_val mtu_val now : Int) (l : List Int)
    (db : ServerDb) (p : Int) (hin : p ∈ l) (hp : p ≠ node_id_val) (b : Bool) :
    ∃ t ∈ (l.foldl (joinMeshTunnelStep node_id_val mtu_val now) db).tunnels,
      tunnelConnects node_id_val p t ∧ t.endpoint_ipv6 = b := by
  induction l generalizing db with
  | nil => cases hin
  | cons q rest ih =>
    simp only [List.foldl_cons]
    rcases List.mem_cons.mp hin with rfl | hin
    · obtain ⟨t, htm, htc⟩ :=
        joinMeshTunnelStep_pair node_id_val mtu_val now db p hp b
      exact ⟨t, joinMeshFold_mono node_id_val mtu_val now rest _ t htm, htc⟩
    · exact ih (joinMeshTunnelStep node_id_val mtu_val now db q) hin

theorem get_mesh_members_congr (a c : ServerDb) (i : Int)
    (h1 : a.memberships = c.memberships) (h2 : a.node_ids = c.node_ids) :
    get_mesh_members a i = get_mesh_members c i := by
  simp [get_mesh_members, h1, h2]

theorem join_mesh_ok_parts (db db1 : ServerDb) (node_id_val mesh_id_val now : Int)
    (mesh : MeshGroup)
    (hmm : (mesh_id_val, node_id_val) ∈ db1.memberships)
    (hT : db1.tunnels = db.tunnels) (hG : db1.meshes = db.meshes)
    (hfind : db.meshes.find? (fun m => m.id == mesh_id_val) = some mesh)
    (hauto : mesh.auto_wireguard = true) :
    ((mesh_id_val, node_id_val) ∈
      ((get_mesh_members db1 mesh_id_val).foldl
        (joinMeshTunnelStep node_id_val mesh.auto_wireguard_mtu now) db1).memberships) ∧
    (∀ now', ∃ db'',
      join_mesh
        ((get_mesh_members db1 mesh_id_val).foldl
          (joinMeshTunnelStep node_id_val mesh.auto_wireguard_mtu now) db1)
        node_id_val mesh_id_val now' = .ok db'' ∧
      db''.memberships =
        ((get_mesh_members db1 mesh_id_val).foldl
          (joinMeshTunnelStep node_id_val mesh.auto_wireguard_mtu now) db1).memberships) ∧
    (∀ p ∈ get_mesh_members
        ((get_mesh_members db1 mesh_id_val).foldl
          (joinMeshTunnelStep node_id_val mesh.auto_wireguard_mtu now) db1) mesh_id_val,
      p ≠ node_id_val → ∀ b : Bool,
      ∃ t ∈ ((get_mesh_members db1 mesh_id_val).foldl
          (joinMeshTunnelStep node_id_val mesh.auto_wireguard_mtu now) db1).tunnels,
        tunnelConnects node_id_val p t ∧ t.endpoint_ipv6 = b ∧
        (t ∈ db.tunnels ∨ t.mtu = mesh.auto_wireguard_mtu)) := by
  obtain ⟨added, heT, heM, heG, heN, hFields⟩ :=
    joinMeshFold_spec node_id_val mesh.auto_wireguard_mtu now
      (get_mesh_members db1 mesh_id_val) db1
  refine ⟨?_, ?_, ?_⟩
  · rw [heM]
    exact hmm
  · intro now'
    have hfind2 : (((get_mesh_members db1 mesh_id_val).foldl
        (joinMeshTunnelStep node_id_val mesh.auto_wireguard_mtu now) db1).meshes.find?
          (fun m => m.id == mesh_id_val)) = some mesh := by
      rw [heG, hG]
      exact hfind
    have hc2 : (((get_mesh_members db1 mesh_id_val).foldl
        (joinMeshTunnelStep node_id_val mesh.auto_wireguard_mtu now) db1).memberships.contains
          (mesh_id_val, node_id_val)) = true := by
      rw [heM]
      exact List.elem_iff.mpr hmm
    simp only [join_mesh, hfind2, hauto, if_true, hc2]
    obtain ⟨added2, heT2, heM2, heG2, heN2, hFields2⟩ :=
      joinMeshFold_spec node_id_val mesh.auto_wireguard_mtu now'
        (get_mesh_members
          ((get_mesh_members db1 mesh_id_val).foldl
            (joinMeshTunnelStep node_id_val mesh.auto_wireguard_mtu now) db1) mesh_id_val)
        ((get_mesh_members db1 mesh_id_val).foldl
          (joinMeshTunnelStep node_id_val mesh.auto_wireguard_mtu now) db1)
    exact ⟨_, rfl, heM2⟩
  · intro p hpm hpn b
    have hcongr : get_mesh_members
        ((get_mesh_members db1 mesh_id_val).foldl
          (joinMeshTunnelStep node_id_val mesh.auto_wireguard_mtu now) db1) mesh_id_val =
        get_mesh_members db1 mesh_id_val :=
      get_mesh_members_congr _ _ _ heM heN
    rw [hcongr] at hpm
    obtain ⟨t, htm, htc, htb⟩ :=
      joinMeshFold_pair node_id_val mesh.auto_wireguard_mtu now
        (get_mesh_members db1 mesh_id_val) db1 p hpm hpn b
    refine ⟨t, htm, htc, htb, ?_⟩
    rw [heT] at htm
    rcases List.mem_append.mp htm with h | h
    · exact Or.inl (hT ▸ h)
    · exact Or.inr (hFields t h).2

/-- C8 amended: joining an existing mesh with `auto_wireguard = true`
succeeds, makes the membership exist (a repeated call succeeds without
creating a second membership), and afterwards, for every member `p` other
than the joining node and each ipv6 flag, a descriptor of the unordered
pair exists with that flag; every descriptor the call itself created
carries the mesh's `auto_wireguard_mtu` (a pre-existing duplicate keeps its
own mtu). -/
theorem join_mesh_auto_wireguard_spec (db : ServerDb)
    (node_id_val mesh_id_val now : Int) (mesh : MeshGroup)
    (hfind : db.meshes.find? (fun m => m.id == mesh_id_val) = some mesh)
    (hauto : mesh.auto_wireguard = true) :
    ∃ db', join_mesh db node_id_val mesh_id_val now = .ok db' ∧
      (mesh_id_val, node_id_val) ∈ db'.memberships ∧
      (∀ now', ∃ db'',
        join_mesh db' node_id_val mesh_id_val now' = .ok db'' ∧
        db''.memberships = db'.memberships) ∧
      (∀ p ∈ get_mesh_members db' mesh_id_val, p ≠ node_id_val → ∀ b : Bool,
        ∃ t ∈ db'.tunnels, tunnelConnects node_id_val p t ∧
          t.endpoint_ipv6 = b ∧
          (t ∈ db.tunnels ∨ t.mtu = mesh.auto_wireguard_mtu)) := by
  simp only [join_mesh, hfind, hauto, if_true]
  by_cases hc : db.memberships.contains (mesh_id_val, node_id_val) = true
  · rw [if_pos hc]
    obtain ⟨h1, h2, h3⟩ := join_mesh_ok_parts db db node_id_val mesh_id_val now
      mesh (List.elem_iff.mp hc) rfl rfl hfind hauto
    exact ⟨_, rfl, h1, h2, h3⟩
  · rw [if_neg hc]
    obtain ⟨h1, h2, h3⟩ := join_mesh_ok_parts db
      { db with memberships := db.memberships ++ [(mesh_id_val, node_id_val)] }
      node_id_val mesh_id_val now mesh
      (List.mem_append_right _ (List.mem_singleton_self _)) rfl rfl hfind hauto
    exact ⟨_, rfl, h1, h2, h3⟩

set_option maxRecDepth 4000 in
/-- C8 counterexample: joining mesh 10 (`auto_wireguard`, mtu 1380) as
node 4, when a pair-`{3,4}` IPv4-endpoint descriptor with mtu 999 already
exists, succeeds but leaves no IPv4-endpoint descriptor of that pair with
mtu 1380 — the duplicate-creation error was ignored and the pre-existing
descriptor keeps its mtu, refuting the claimed `mtu = auto_wireguard_mtu`
existence. -/
theorem join_mesh_mtu_counterexample :
    join_mesh
        { tunnels := [{
            id := 1, node_id_peer1 := 3, node_id_peer2 := 4,
            endpoint_peer1 := none, endpoint_peer2 := none,
            peer1_answered := 0, peer2_answered := 0, mtu := 999,
            endpoint_ipv6 := false, created_at := 0, updated_at := 0 }],
          next_tunnel_id := 2,
          meshes := [{ id := 10, name := "M", auto_wireguard := true,
                       auto_wireguard_mtu := 1380 }],
          memberships := [(10, 3)], node_ids := [3, 4], static_keys := [] }
        4 10 50 =
      .ok { tunnels := [{
              id := 1, node_id_peer1 := 3, node_id_peer2 := 4,
              endpoint_peer1 := none, endpoint_peer2 := none,
              peer1_answered := 0, peer2_answered := 0, mtu := 999,
              endpoint_ipv6 := false, created_at := 0, updated_at := 0 },
            { id := 2, node_id_peer1 := 4, node_id_peer2 := 3,
              endpoint_peer1 := none, endpoint_peer2 := none,
              peer1_answered := 0, peer2_answered := 0, mtu := 1380,
              endpoint_ipv6 := true, created_at := 50, updated_at := 50 }],
            next_tunnel_id := 3,
            meshes := [{ id := 10, name := "M", auto_wireguard := true,
                         auto_wireguard_mtu := 1380 }],
            memberships := [(10, 3), (10, 4)], node_ids := [3, 4],
            static_keys := [] } ∧
    ¬ ∃ t ∈ [{ id := 1, node_id_peer1 := 3, node_id_peer2 := 4,
               endpoint_peer1 := none, endpoint_peer2 := none,
               peer1_answered := 0, peer2_answered := 0, mtu := 999,
               endpoint_ipv6 := false, created_at := 0, updated_at := 0 },
             { id := 2, node_id_peer1 := 4, node_id_peer2 := 3,
               endpoint_peer1 := none, endpoint_peer2 := none,
               peer1_answered := 0, peer2_answered := 0, mtu := 1380,
               endpoint_ipv6 := true, created_at := 50, updated_at := 50 }],
        tunnelConnects 4 3 t ∧ t.endpoint_ipv6 = false ∧ t.mtu = 1380 := by
  exact ⟨by rfl, by decide⟩

/-- C8 witness: the amended theorem applied to a concrete database with
mesh 10 and member 3. -/
theorem join_mesh_auto_wireguard_spec_witness :
    ∃ db', join_mesh
        { tunnels := [], next_tunnel_id := 1,
          meshes := [{ id := 10, name := "M", auto_wireguard := true,
                       auto_wireguard_mtu := 1380 }],
          memberships := [(10, 3)], node_ids := [3, 4], static_keys := [] }
        4 10 50 = .ok db' ∧
      ((10 : Int), (4 : Int)) ∈ db'.memberships ∧
      (∀ now', ∃ db'',
        join_mesh db' 4 10 now' = .ok db'' ∧
        db''.memberships = db'.memberships) ∧
      (∀ p ∈ get_mesh_members db' 10, p ≠ 4 → ∀ b : Bool,
        ∃ t ∈ db'.tunnels, tunnelConnects 4 p t ∧
          t.endpoint_ipv6 = b ∧
          (t ∈ ([] : List WireguardTunnel) ∨ t.mtu = 1380)) :=
  join_mesh_auto_wireguard_spec _ 4 10 50
    { id := 10, name := "M", auto_wireguard := true, auto_wireguard_mtu := 1380 }
    (by decide) (by decide)
